import Mathlib

/-!
Verification development for the task lifecycle / action-completion engine
of the vemsimbora repository (source: src/src/pages/admin/TaskDetails.tsx,
which bundles the React page component and two revisions of
src/services/TaskService.ts).

The definitions below are a shallow embedding of the TypeScript source:
  - JS objects carrying the free-form `data` payload of an action are
    modelled as ordered association lists (`JsObj`), with `jsSpread`
    mirroring the semantics of the object spread `{...a, ...b}`
    (keys of `a` keep their position, values overridden by `b`; new keys
    of `b` are appended in order).
  - Firestore documents are modelled as in-memory values; a single-task
    operation receives the stored document as `Option TaskSchema`
    (`none` when the document does not exist) and returns
    `Except TaskError TaskSchema` with the written document on success.
  - Timestamps (`Date.now()`) are `Nat` parameters, the authenticated
    user (`auth.currentUser?.uid`) is an `Option String` parameter.
  - `difficultyLevel` and the system settings are numbers; they are
    modelled as rationals, with `Math.round` modelled as
    `fun x => ⌊x + 1/2⌋` (round half toward positive infinity), which is
    its real-number semantics.
-/

/-- Model of a JavaScript primitive value stored in an action `data`
payload (numbers, strings, booleans and `undefined` suffice for the
properties verified here). -/
inductive JsVal where
  | num (n : Int)
  | str (s : String)
  | bool (b : Bool)
  | undef
deriving DecidableEq

/-- A JavaScript object as an ordered list of key/value properties. -/
abbrev JsObj := List (String × JsVal)

/-- Property lookup on a JS object (first binding wins, as in an object
with unique keys). -/
def lookupKey (o : JsObj) (k : String) : Option JsVal :=
  (o.find? (fun kv => kv.1 == k)).map (fun kv => kv.2)

/-- The per-entry override applied to the left operand of a spread
`{...a, ...b}`: an entry of `a` keeps its key and position but takes the
value from `b` when `b` binds the same key. -/
def spreadFun (b : JsObj) (kv : String × JsVal) : String × JsVal :=
  match lookupKey b kv.1 with
  | some v => (kv.1, v)
  | none => kv

/-- JavaScript object spread `{...a, ...b}`: entries of `a` in order with
values overridden by `b`, followed by the entries of `b` whose keys are
new. -/
def jsSpread (a b : JsObj) : JsObj :=
  a.map (spreadFun b) ++ b.filter (fun kv => (lookupKey a kv.1).isNone)

/-- Task status, `TaskSchema['status']` in the source. -/
inductive TaskStatus where
  | pending
  | in_progress
  | waiting_approval
  | completed
  | blocked
deriving DecidableEq

/-- Task priority, `TaskSchema['priority']` in the source. -/
inductive Priority where
  | low
  | medium
  | high
  | critical
deriving DecidableEq

/-- An action of a task (`TaskAction` in the firestore schema, as used by
TaskService). `completedAt`/`completedBy` are `Option` because the source
removes these properties entirely when uncompleting an action. -/
structure TaskAction where
  id : String
  title : String
  completed : Bool
  completedAt : Option Nat
  completedBy : Option String
  required : Bool
  data : JsObj
deriving DecidableEq

/-- A task document (`TaskSchema`), restricted to the fields the verified
operations read or write. -/
structure TaskSchema where
  id : String
  title : String
  description : String
  projectId : String
  assignedTo : String
  createdBy : String
  status : TaskStatus
  priority : Priority
  difficultyLevel : Rat
  coinsReward : Int
  dueDate : Nat
  actions : List TaskAction
  createdAt : Nat
  updatedAt : Nat
deriving DecidableEq

/-- Errors surfaced by the modelled service operations. The source throws
plain `Error('Tarefa não encontrada')` / `Error('Task not found')` when a
document is absent; no other typed error exists in TaskService. -/
inductive TaskError where
  | notFound
deriving DecidableEq

/-- The partial update object passed to `updateTask` (only the `status`
field matters for the verified claims; absent fields are untouched by
`updateDoc`). -/
structure TaskUpdates where
  status : Option TaskStatus
deriving DecidableEq

/-- TaskService.updateTask (source lines 788-833): performs
`updateDoc(taskRef, {...updates, updatedAt: Date.now()})` with no guard
and no transition validation, then returns the re-read task. `updateDoc`
on a missing document rejects, modelled as `TaskError.notFound`. -/
def updateTask (store : Option TaskSchema) (updates : TaskUpdates) (now : Nat) :
    Except TaskError TaskSchema :=
  match store with
  | none => Except.error TaskError.notFound
  | some task =>
      Except.ok { task with
                  status := updates.status.getD task.status,
                  updatedAt := now }

/-- The action-array rewrite inside TaskService.completeTaskAction
(source lines 861-872, first revision): the matching action gets
`completed: true`, `completedAt: Date.now()`,
`completedBy: auth.currentUser?.uid` and, when a patch object was
supplied (`data ? {data: {...action.data, ...data}} : {}`), its `data`
shallow-merged with the patch; every other action is returned as-is. -/
def completeActionsMap (actions : List TaskAction) (actionId : String)
    (now : Nat) (actor : Option String) (patch : Option JsObj) : List TaskAction :=
  actions.map (fun action =>
    if action.id = actionId then
      { action with
        completed := true,
        completedAt := some now,
        completedBy := actor,
        data := match patch with
          | some p => jsSpread action.data p
          | none => action.data }
    else action)

/-- TaskService.completeTaskAction (source lines 847-882, first
revision): loads the task (`Tarefa não encontrada` when absent), maps the
action array with `completeActionsMap`, and writes the whole array back
together with a fresh `updatedAt`. Note: an unknown `actionId` is not
detected; the map simply changes nothing and the write still happens. -/
def completeTaskAction (store : Option TaskSchema) (actionId : String)
    (now : Nat) (actor : Option String) (patch : Option JsObj) :
    Except TaskError TaskSchema :=
  match store with
  | none => Except.error TaskError.notFound
  | some task =>
      Except.ok { task with
                  actions := completeActionsMap task.actions actionId now actor patch,
                  updatedAt := now }

/-- The action-array rewrite inside the second revision of
TaskService.completeTaskAction (source lines 1159-1173): the matching
action's `data` becomes `{...action.data, value: data.value}` — only the
`value` property of the patch is copied (set to `undefined` when the
patch lacks it); all other patch keys are ignored. -/
def completeActionsMapV2 (actions : List TaskAction) (actionId : String)
    (now : Nat) (actor : Option String) (data : JsObj) : List TaskAction :=
  actions.map (fun action =>
    if action.id = actionId then
      { action with
        completed := true,
        completedAt := some now,
        completedBy := actor,
        data := jsSpread action.data
          [("value", (lookupKey data "value").getD JsVal.undef)] }
    else action)

/-- TaskService.completeTaskAction, second revision (source lines
1149-1185). -/
def completeTaskActionV2 (store : Option TaskSchema) (actionId : String)
    (now : Nat) (actor : Option String) (data : JsObj) :
    Except TaskError TaskSchema :=
  match store with
  | none => Except.error TaskError.notFound
  | some task =>
      Except.ok { task with
                  actions := completeActionsMapV2 task.actions actionId now actor data,
                  updatedAt := now }

/-- The action-array rewrite inside TaskService.uncompleteTaskAction
(source lines 898-907): the matching action is rebuilt by destructuring
`completed`, `completedAt`, `completedBy` out of it and setting
`completed: false`, so the timestamp and author fields are removed
entirely. -/
def uncompleteActionsMap (actions : List TaskAction) (actionId : String) :
    List TaskAction :=
  actions.map (fun action =>
    if action.id = actionId then
      { action with
        completed := false,
        completedAt := none,
        completedBy := none }
    else action)

/-- TaskService.uncompleteTaskAction (source lines 885-917). As with
completion, an unknown `actionId` changes nothing but the write (with a
fresh `updatedAt`) still happens and no error is raised. -/
def uncompleteTaskAction (store : Option TaskSchema) (actionId : String)
    (now : Nat) : Except TaskError TaskSchema :=
  match store with
  | none => Except.error TaskError.notFound
  | some task =>
      Except.ok { task with
                  actions := uncompleteActionsMap task.actions actionId,
                  updatedAt := now }

/-- Model of `Math.round` on the reals (here on the rationals): round to
the nearest integer with ties toward positive infinity,
`Math.round(x) = floor(x + 0.5)`. -/
def mathRound (x : Rat) : Int := ⌊x + 1/2⌋

/-- Modelled from the spec, for comparison with the source formula:
"rounding to nearest integer (ties away from zero)". -/
def roundTiesAway (x : Rat) : Int :=
  if 0 ≤ x then ⌊x + 1/2⌋ else -⌊-x + 1/2⌋

/-- The system settings read at task-creation time
(`systemSettingsService.getSettings()`). -/
structure SystemSettings where
  taskCompletionBase : Rat
  complexityMultiplier : Rat
deriving DecidableEq

/-- The caller-supplied task data for creation
(`Omit<TaskSchema, 'id' | 'createdAt' | 'updatedAt'>`), restricted to the
fields the verified operations use. -/
structure TaskInput where
  title : String
  description : String
  projectId : String
  assignedTo : String
  priority : Priority
  difficultyLevel : Rat
  dueDate : Nat
  actions : List TaskAction
deriving DecidableEq

/-- TaskService.createTask (source lines 632-692): computes
`coinsReward = Math.round(difficultyLevel * taskCompletionBase *
complexityMultiplier)` and stores the new task with `status: 'pending'`
and fresh timestamps. -/
def createTask (input : TaskInput) (settings : SystemSettings)
    (newId uid : String) (now : Nat) : TaskSchema :=
  { id := newId,
    title := input.title,
    description := input.description,
    projectId := input.projectId,
    assignedTo := input.assignedTo,
    createdBy := uid,
    status := TaskStatus.pending,
    priority := input.priority,
    difficultyLevel := input.difficultyLevel,
    coinsReward := mathRound (input.difficultyLevel *
      settings.taskCompletionBase * settings.complexityMultiplier),
    dueDate := input.dueDate,
    actions := input.actions,
    createdAt := now,
    updatedAt := now }

/-- One element of an action template
(`ActionTemplateSchema.elements[i]`). -/
structure TemplateElement where
  label : String
  elemType : String
  description : String
  required : Bool
  defaultValue : JsVal
deriving DecidableEq

/-- TaskService.createActionsFromTemplate (source lines 1029-1042):
each template element becomes an initial action with
`completed: false` and a `data` payload spreading the element plus
`value: element.defaultValue`. -/
def createActionsFromTemplate (elements : List TemplateElement)
    (now : Nat) : List TaskAction :=
  elements.enum.map (fun ie =>
    { id := "action_" ++ toString ie.1 ++ "_" ++ toString now,
      title := ie.2.label,
      completed := false,
      completedAt := none,
      completedBy := none,
      required := ie.2.required,
      data := [("label", JsVal.str ie.2.label),
               ("type", JsVal.str ie.2.elemType),
               ("description", JsVal.str ie.2.description),
               ("required", JsVal.bool ie.2.required),
               ("defaultValue", ie.2.defaultValue),
               ("value", ie.2.defaultValue)] })

/-- TaskService.createTaskWithTemplate (source lines 973-1027): same
reward formula as createTask, with the action list generated from the
template. -/
def createTaskWithTemplate (input : TaskInput) (settings : SystemSettings)
    (template : List TemplateElement) (newId uid : String) (now : Nat) :
    TaskSchema :=
  { createTask input settings newId uid now with
    actions := createActionsFromTemplate template now }

/-- UI predicate `allActionsCompleted` (source line 274):
`task.actions?.length > 0 && task.actions.every(action =>
action.completed)` — every action, required or not, must be completed,
and the list must be non-empty. This is the only gate in front of the
"Enviar para Aprovação" button. -/
def allActionsCompleted (task : TaskSchema) : Bool :=
  decide (0 < task.actions.length) && task.actions.all (fun a => a.completed)

/-- Modelled from the spec, for comparison with the source gate: the
transition-table guard "every Action with required = true has
completed = true". -/
def requiredActionsCompleted (task : TaskSchema) : Bool :=
  task.actions.all (fun a => !a.required || a.completed)

/-- Truthiness of an optional numeric option in JavaScript: `undefined`
and `0` are falsy. -/
def jsTruthyNat : Option Nat → Bool
  | some n => decide (n ≠ 0)
  | none => false

/-- `Math.ceil(n / l)` on naturals, for `l > 0`. -/
def natCeilDiv (n l : Nat) : Nat := (n + l - 1) / l

/-- The filter options of TaskService.fetchTasks (source lines 695-707).
The `startAfter` cursor is not modelled: it only removes a prefix of the
result page and none of the verified properties depend on it. -/
structure FetchOptions where
  projectId : Option String
  assignedTo : Option String
  status : Option TaskStatus
  priority : Option Priority
  limit : Option Nat
deriving DecidableEq

/-- The `where` constraints of fetchTasks: a stored task matches when
every supplied filter equals the corresponding field. -/
def matchesFilters (o : FetchOptions) (t : TaskSchema) : Bool :=
  (match o.projectId with | some p => t.projectId == p | none => true) &&
  (match o.assignedTo with | some u => t.assignedTo == u | none => true) &&
  (match o.status with | some s => t.status == s | none => true) &&
  (match o.priority with | some p => t.priority == p | none => true)

/-- Insertion step for `orderBy('createdAt', 'desc')`. -/
def insertByCreatedAtDesc (t : TaskSchema) : List TaskSchema → List TaskSchema
  | [] => [t]
  | h :: rest =>
      if h.createdAt ≤ t.createdAt then t :: h :: rest
      else h :: insertByCreatedAtDesc t rest

/-- The `orderBy('createdAt', 'desc')` ordering of the query result. -/
def orderByCreatedAtDesc : List TaskSchema → List TaskSchema
  | [] => []
  | h :: rest => insertByCreatedAtDesc h (orderByCreatedAtDesc rest)

/-- The page of documents actually returned by the fetchTasks query:
matching tasks, ordered by `createdAt` descending, truncated to
`options.limit` when that option is truthy (the source only pushes the
`limit` constraint under `if (options?.limit)`). -/
def fetchedPage (store : List TaskSchema) (o : FetchOptions) : List TaskSchema :=
  if jsTruthyNat o.limit then
    (orderByCreatedAtDesc (store.filter (matchesFilters o))).take (o.limit.getD 0)
  else
    orderByCreatedAtDesc (store.filter (matchesFilters o))

/-- The result shape returned by fetchTasks. -/
structure FetchResult where
  data : List TaskSchema
  totalTasks : Nat
  totalPages : Nat
deriving DecidableEq

/-- TaskService.fetchTasks (source lines 695-765): the returned
`totalTasks` is `tasks.length` computed from the fetched page itself
(after the limit constraint), and `totalPages` is
`options?.limit ? Math.ceil(totalTasks / options.limit) : 1`. -/
def fetchTasks (store : List TaskSchema) (o : FetchOptions) : FetchResult :=
  { data := fetchedPage store o,
    totalTasks := (fetchedPage store o).length,
    totalPages :=
      if jsTruthyNat o.limit then
        natCeilDiv (fetchedPage store o).length (o.limit.getD 0)
      else 1 }

/-- A system chat message stored in a project channel, restricted to the
fields handleCompleteTask inspects when searching for the submission
announcement. -/
structure StoredMessage where
  id : String
  messageType : String
  quotedContent : String
  timestamp : Nat
deriving DecidableEq

/-- An outgoing system message passed to
`projectService.addSystemMessageToProjectChat`. -/
structure OutMessage where
  userId : String
  userName : String
  content : String
  timestamp : Nat
  messageType : String
  quotedContent : String
  originalMessageId : Option String
deriving DecidableEq

/-- JavaScript `String.prototype.includes`, via `splitOn`: a non-empty
pattern occurs in `s` exactly when splitting on it yields more than one
piece; the empty pattern is always contained. -/
def containsSub (s pat : String) : Bool :=
  decide (1 < (s.splitOn pat).length) || (pat == "")

/-- Rendering of a timestamp in an announcement body
(`toLocaleString('pt-BR', ...)`). The locale formatting itself is
environment behaviour outside the verified core; it is modelled as
numeral printing, which none of the verified properties inspect. -/
def formatTimestamp (ts : Nat) : String := toString ts

/-- The quoted message embedded in both announcements (source lines
135-138 and 193-196): it carries the task identifier marker
`/tasks/{id}` used later for correlation. -/
def quotedTaskContent (t : TaskSchema) : String :=
  "Tarefa: " ++ t.title ++ " - [Ver Tarefa](/tasks/" ++ t.id ++ ")"

/-- The submission announcement built by handleSubmitForApproval (source
lines 127-140). -/
def submissionMessage (t : TaskSchema) (submitterName : String) (now : Nat) :
    OutMessage :=
  { userId := "system",
    userName := "Sistema",
    content := "A tarefa \"" ++ t.title ++ "\" foi enviada para aprovação por "
      ++ submitterName ++ ".",
    timestamp := now,
    messageType := "task_submission",
    quotedContent := quotedTaskContent t,
    originalMessageId := none }

/-- The predicate handleCompleteTask uses to find the original submission
announcement (source lines 162-164): `messageType === 'task_submission'`
and the quoted content includes the `/tasks/{id}` marker. -/
def isSubmissionMarker (taskId : String) (m : StoredMessage) : Bool :=
  (m.messageType == "task_submission") &&
    containsSub m.quotedContent ("/tasks/" ++ taskId)

/-- The approval announcement built by handleCompleteTask (source lines
182-198), tagged `task_approval` and back-referencing the submission
announcement through `originalMessageId`. -/
def approvalMessage (t : TaskSchema) (sub : StoredMessage)
    (submitterName approverName : String) (now : Nat) : OutMessage :=
  { userId := "system",
    userName := "Sistema",
    content := "A tarefa \"" ++ t.title ++ "\" foi enviada para aprovação por "
      ++ submitterName ++ " no dia " ++ formatTimestamp sub.timestamp
      ++ ", e aprovada por " ++ approverName ++ " no dia "
      ++ formatTimestamp now ++ ".",
    timestamp := now,
    messageType := "task_approval",
    quotedContent := quotedTaskContent t,
    originalMessageId := some sub.id }

/-- handleSubmitForApproval (source lines 122-146): updates the task to
`waiting_approval` through TaskService.updateTask (which performs no
guard), then posts exactly one `task_submission` announcement built from
the updated task. The pair returned on success is (written task, list of
announcements posted). -/
def handleSubmitForApproval (store : Option TaskSchema) (now : Nat)
    (submitterName : String) :
    Except TaskError (TaskSchema × List OutMessage) :=
  match updateTask store { status := some TaskStatus.waiting_approval } now with
  | Except.error e => Except.error e
  | Except.ok t => Except.ok (t, [submissionMessage t submitterName now])

/-- handleCompleteTask (source lines 148-207): updates the task to
`completed` through TaskService.updateTask (no transition validation),
then searches the project messages for the submission announcement. When
one is found, exactly one `task_approval` announcement is posted; when
none is found the code only logs a warning and posts nothing — the
status change stays committed either way. -/
def handleCompleteTask (store : Option TaskSchema) (msgs : List StoredMessage)
    (now : Nat) (submitterName approverName : String) :
    Except TaskError (TaskSchema × List OutMessage) :=
  match updateTask store { status := some TaskStatus.completed } now with
  | Except.error e => Except.error e
  | Except.ok t =>
      match msgs.find? (isSubmissionMarker t.id) with
      | some sub =>
          Except.ok (t, [approvalMessage t sub submitterName approverName now])
      | none => Except.ok (t, [])

/-- handleRevertToPending (source lines 209-218): a plain updateTask to
`pending`, with no check of the current status. -/
def handleRevertToPending (store : Option TaskSchema) (now : Nat) :
    Except TaskError TaskSchema :=
  updateTask store { status := some TaskStatus.pending } now

/-- A best-effort collaborator call: the notification, activity-log and
chat services are external; a call either resolves or rejects with a
dispatch failure. -/
def callDispatcher (fails : Bool) : Except String Unit :=
  if fails then Except.error "dispatch failure" else Except.ok ()

instance : DecidableEq (Except String Unit) := fun a b =>
  match a, b with
  | Except.ok (), Except.ok () => isTrue rfl
  | Except.error e1, Except.error e2 =>
      if h : e1 = e2 then isTrue (by rw [h]) else isFalse (by
        intro hc; exact h (Except.error.inj hc))
  | Except.ok _, Except.error _ => isFalse (by intro hc; cases hc)
  | Except.error _, Except.ok _ => isFalse (by intro hc; cases hc)

/-- Observable outcome of one createTask run: whether the `setDoc` write
committed, which dispatchers were actually invoked, and what the caller
of createTask sees. -/
structure CreateOutcome where
  committed : Bool
  notifyInvoked : Bool
  activityInvoked : Bool
  result : Except String Unit
deriving DecidableEq

/-- Control-flow trace of TaskService.createTask (source lines 632-692):
`await setDoc` commits first; then, inside the same try block,
`notificationService.createNotification` runs when the task has an
assignee, followed by `activityService.logActivity`. The surrounding
`catch` logs the error and rethrows it (`throw error`), so a rejection
of any awaited call aborts the remaining calls and surfaces to the
caller; the already-committed document write is not undone. -/
def createTaskEffects (setDocFails hasAssignee notifyFails activityFails : Bool) :
    CreateOutcome :=
  if setDocFails then
    { committed := false, notifyInvoked := false, activityInvoked := false,
      result := Except.error "store failure" }
  else if hasAssignee then
    match callDispatcher notifyFails with
    | Except.error e =>
        { committed := true, notifyInvoked := true, activityInvoked := false,
          result := Except.error e }
    | Except.ok _ =>
        match callDispatcher activityFails with
        | Except.error e =>
            { committed := true, notifyInvoked := true, activityInvoked := true,
              result := Except.error e }
        | Except.ok _ =>
            { committed := true, notifyInvoked := true, activityInvoked := true,
              result := Except.ok () }
  else
    match callDispatcher activityFails with
    | Except.error e =>
        { committed := true, notifyInvoked := false, activityInvoked := true,
          result := Except.error e }
    | Except.ok _ =>
        { committed := true, notifyInvoked := false, activityInvoked := true,
          result := Except.ok () }

/-- Observable outcome of one updateTask run: whether `updateDoc`
committed, which of the two activity-log calls ran, and what the caller
sees. -/
structure UpdateOutcome where
  committed : Bool
  updateLogInvoked : Bool
  statusLogInvoked : Bool
  result : Except String Unit
deriving DecidableEq

/-- Control-flow trace of TaskService.updateTask (source lines 788-833):
`await updateDoc` commits first; then `logActivity('task_updated')` runs,
and when the update carried a `status` field a second
`logActivity('task_status_update')` follows — all inside one try block
whose catch rethrows. A failing first log call therefore suppresses the
second and surfaces to the caller, while the committed update stays. -/
def updateTaskEffects (updateDocFails statusUpdated log1Fails log2Fails : Bool) :
    UpdateOutcome :=
  if updateDocFails then
    { committed := false, updateLogInvoked := false, statusLogInvoked := false,
      result := Except.error "store failure" }
  else
    match callDispatcher log1Fails with
    | Except.error e =>
        { committed := true, updateLogInvoked := true, statusLogInvoked := false,
          result := Except.error e }
    | Except.ok _ =>
        if statusUpdated then
          match callDispatcher log2Fails with
          | Except.error e =>
              { committed := true, updateLogInvoked := true,
                statusLogInvoked := true, result := Except.error e }
          | Except.ok _ =>
              { committed := true, updateLogInvoked := true,
                statusLogInvoked := true, result := Except.ok () }
        else
          { committed := true, updateLogInvoked := true,
            statusLogInvoked := false, result := Except.ok () }

/-- A concrete base task used by the concrete instances below. -/
def baseTask : TaskSchema :=
  { id := "t1",
    title := "Tarefa",
    description := "Descrição",
    projectId := "p1",
    assignedTo := "u1",
    createdBy := "u0",
    status := TaskStatus.pending,
    priority := Priority.medium,
    difficultyLevel := 3,
    coinsReward := 45,
    dueDate := 1000,
    actions := [],
    createdAt := 1,
    updatedAt := 1 }

/-- A required action that is not completed. -/
def actionReq : TaskAction :=
  { id := "a1", title := "Ação 1", completed := false, completedAt := none,
    completedBy := none, required := true, data := [("bar", JsVal.num 1)] }

/-- A non-required action that is not completed. -/
def actionOpt : TaskAction :=
  { id := "a2", title := "Ação 2", completed := false, completedAt := none,
    completedBy := none, required := false, data := [] }

/-- A task with an incomplete required action. -/
def taskIncomplete : TaskSchema := { baseTask with actions := [actionReq, actionOpt] }

/-- The required action after completion by the assignee. -/
def actionReqDone : TaskAction :=
  { actionReq with
    completed := true, completedAt := some 5, completedBy := some "u1" }

/-- A task waiting for approval. -/
def taskWaiting : TaskSchema :=
  { baseTask with
    status := TaskStatus.waiting_approval,
    actions := [actionReqDone] }

/-- Sample settings with the documented default configuration
(base 10, multiplier 1.5). -/
def sampleSettings : SystemSettings :=
  { taskCompletionBase := 10, complexityMultiplier := 3/2 }

/-- Sample creation input with difficulty 3. -/
def sampleInput : TaskInput :=
  { title := "Nova tarefa", description := "d", projectId := "p1",
    assignedTo := "u1", priority := Priority.low, difficultyLevel := 3,
    dueDate := 99, actions := [] }

/-- A store with three matching tasks, used to exercise fetchTasks with a
limit smaller than the number of matches. -/
def sampleStore : List TaskSchema :=
  [ { baseTask with id := "t1", createdAt := 3 },
    { baseTask with id := "t2", createdAt := 2 },
    { baseTask with id := "t3", createdAt := 1 } ]

/-- Fetch options supplying limit 1 and no filters. -/
def sampleOptions : FetchOptions :=
  { projectId := none, assignedTo := none, status := none, priority := none,
    limit := some 1 }

/-- The per-action completion invariant of the data model:
`completed = true` exactly when both `completedAt` and `completedBy` are
present. -/
def actionInvB (a : TaskAction) : Bool :=
  a.completed == (a.completedAt.isSome && a.completedBy.isSome)

theorem find?_append_own {α : Type} (p : α → Bool) (l1 l2 : List α) :
    (l1 ++ l2).find? p = ((l1.find? p).orElse (fun _ => l2.find? p)) := by
  induction l1 with
  | nil => rfl
  | cons x xs ih =>
      cases hp : p x <;> simp [List.find?, hp, ih, Option.orElse]

theorem find?_filter_of_imp {α : Type} (p g : α → Bool) (l : List α)
    (h : ∀ x, p x = true → g x = true) :
    (l.filter g).find? p = l.find? p := by
  induction l with
  | nil => rfl
  | cons x xs ih =>
      cases hg : g x
      · cases hp : p x
        · simp [List.filter_cons, hg, List.find?, hp, ih]
        · exact absurd (h x hp) (by simp [hg])
      · simp only [List.filter_cons, hg, if_pos]
        cases hp : p x <;> simp [List.find?, hp, ih]

theorem spreadFun_fst (b : JsObj) (kv : String × JsVal) :
    (spreadFun b kv).1 = kv.1 := by
  unfold spreadFun
  cases lookupKey b kv.1 <;> rfl

theorem find?_map_spreadFun (b : JsObj) (k : String) (a : JsObj) :
    (a.map (spreadFun b)).find? (fun kv => kv.1 == k) =
      (a.find? (fun kv => kv.1 == k)).map (spreadFun b) := by
  induction a with
  | nil => rfl
  | cons x xs ih =>
      have hfst : (spreadFun b x).1 = x.1 := spreadFun_fst b x
      cases hp : (x.1 == k)
      · simp [List.find?, hfst, hp, ih]
      · simp [List.find?, hfst, hp]

theorem lookupKey_append (l1 l2 : JsObj) (k : String) :
    lookupKey (l1 ++ l2) k =
      ((lookupKey l1 k).orElse (fun _ => lookupKey l2 k)) := by
  show ((l1 ++ l2).find? (fun kv => kv.1 == k)).map (fun kv => kv.2) = _
  rw [find?_append_own]
  cases h : l1.find? (fun kv => kv.1 == k) with
  | some kv =>
      have h1 : lookupKey l1 k = some kv.2 := by unfold lookupKey; rw [h]; rfl
      rw [h1]
      simp [Option.orElse]
  | none =>
      have h1 : lookupKey l1 k = none := by unfold lookupKey; rw [h]; rfl
      rw [h1]
      simp [Option.orElse, lookupKey]

theorem lookupKey_map_spreadFun (a b : JsObj) (k : String) :
    lookupKey (a.map (spreadFun b)) k =
      (lookupKey a k).map (fun v => (lookupKey b k).getD v) := by
  show ((a.map (spreadFun b)).find? (fun kv => kv.1 == k)).map (fun kv => kv.2) = _
  rw [find?_map_spreadFun]
  cases ha : a.find? (fun kv => kv.1 == k) with
  | none =>
      have hla : lookupKey a k = none := by unfold lookupKey; rw [ha]; rfl
      rw [hla]; rfl
  | some kv =>
      have hk : kv.1 = k := by simpa using List.find?_some ha
      have hla : lookupKey a k = some kv.2 := by unfold lookupKey; rw [ha]; rfl
      rw [hla]
      show some ((spreadFun b kv).2) = some ((lookupKey b k).getD kv.2)
      unfold spreadFun
      rw [hk]
      cases hlb : lookupKey b k <;> simp [hlb]

/-- Lookup semantics of the JavaScript spread `{...a, ...b}`: the value
for a key comes from `b` when `b` binds it, else from `a`. This is the
shallow-merge contract (patch keys override, other keys preserved). -/
theorem lookupKey_jsSpread (a b : JsObj) (k : String) :
    lookupKey (jsSpread a b) k =
      ((lookupKey b k).orElse (fun _ => lookupKey a k)) := by
  show lookupKey (a.map (spreadFun b) ++
    b.filter (fun kv => (lookupKey a kv.1).isNone)) k = _
  rw [lookupKey_append, lookupKey_map_spreadFun]
  cases hla : lookupKey a k with
  | some v =>
      cases hlb : lookupKey b k <;> simp [Option.orElse, hlb]
  | none =>
      have hfil : lookupKey
          (b.filter (fun kv => (lookupKey a kv.1).isNone)) k = lookupKey b k := by
        show ((b.filter (fun kv => (lookupKey a kv.1).isNone)).find?
          (fun kv => kv.1 == k)).map (fun kv => kv.2) = _
        rw [find?_filter_of_imp]
        · rfl
        · intro x hx
          rw [show x.1 = k from by simpa using hx, hla]
          rfl
      cases hlb : lookupKey b k <;> simp [Option.orElse, hfil, hlb]

theorem map_congr_mem {α β : Type} (l : List α) (f g : α → β)
    (h : ∀ a ∈ l, f a = g a) : l.map f = l.map g := by
  induction l with
  | nil => rfl
  | cons x xs ih =>
      simp only [List.map_cons]
      rw [h x (List.mem_cons_self x xs),
        ih (fun a ha => h a (List.mem_cons_of_mem _ ha))]

theorem map_eq_self_of {α : Type} (l : List α) (f : α → α)
    (h : ∀ a ∈ l, f a = a) : l.map f = l := by
  rw [map_congr_mem l f (fun a => a) h]
  exact List.map_id' l

theorem natCeilDiv_le_one (n l : Nat) (hl : 0 < l) (h : n ≤ l) :
    natCeilDiv n l ≤ 1 := by
  unfold natCeilDiv
  have h3 : (n + l - 1) / l < 2 := (Nat.div_lt_iff_lt_mul hl).2 (by omega)
  omega

/-- Claim C1, counterexample: `taskIncomplete` has an Action with
`required = true` and `completed = false`, yet submitting it for approval
does not fail with any GuardNotSatisfiedError — it succeeds, writes
`status = waiting_approval` with a fresh `updatedAt`, and posts the
submission announcement. The claimed guard failure does not exist in the
code. -/
theorem C1_counterexample :
    (taskIncomplete.actions.any (fun a => a.required && !a.completed)) = true ∧
    handleSubmitForApproval (some taskIncomplete) 100 "Alice" =
      Except.ok
        ({ taskIncomplete with
           status := TaskStatus.waiting_approval, updatedAt := 100 },
         [submissionMessage
           { taskIncomplete with
             status := TaskStatus.waiting_approval, updatedAt := 100 }
           "Alice" 100]) := by
  exact ⟨rfl, rfl⟩

/-- Claim C1, amended: submitting for approval never fails on a guard —
`TaskService.updateTask` applies `status = waiting_approval`
unconditionally for every task, whatever the completion state of its
required Actions. The only gate in the code is the UI predicate
`allActionsCompleted`, which requires a non-empty action list in which
every Action — required or not — is completed. -/
theorem C1_amended (task : TaskSchema) (now : Nat) (submitterName : String) :
    handleSubmitForApproval (some task) now submitterName =
      Except.ok
        ({ task with status := TaskStatus.waiting_approval, updatedAt := now },
         [submissionMessage
           { task with status := TaskStatus.waiting_approval, updatedAt := now }
           submitterName now]) ∧
    (allActionsCompleted task = true ↔
      task.actions ≠ [] ∧ ∀ a ∈ task.actions, a.completed = true) := by
  constructor
  · rfl
  · simp [allActionsCompleted, List.all_eq_true, List.length_pos]

/-- Claim C2, counterexample: starting from a task in `waiting_approval`,
the transition to `completed` commits, and the subsequent request
`completed → pending` (handleRevertToPending) also succeeds instead of
failing with InvalidTransitionError: `completed` is not terminal and no
transition validation exists. -/
theorem C2_counterexample :
    taskWaiting.status = TaskStatus.waiting_approval ∧
    updateTask (some taskWaiting) { status := some TaskStatus.completed } 10 =
      Except.ok { taskWaiting with status := TaskStatus.completed, updatedAt := 10 } ∧
    handleRevertToPending
        (some { taskWaiting with status := TaskStatus.completed, updatedAt := 10 }) 20 =
      Except.ok { taskWaiting with status := TaskStatus.pending, updatedAt := 20 } := by
  exact ⟨rfl, rfl, rfl⟩

/-- Claim C2, amended: `TaskService.updateTask` performs no transition
validation at all — from every current status (including `completed`
reached via `waiting_approval`), a request for any target status
succeeds and writes that status together with a fresh `updatedAt`;
no InvalidTransitionError exists in the code. -/
theorem C2_amended (task : TaskSchema) (s1 s2 : TaskStatus) (n1 n2 : Nat) :
    updateTask (some task) { status := some s1 } n1 =
      Except.ok { task with status := s1, updatedAt := n1 } ∧
    updateTask (some { task with status := s1, updatedAt := n1 })
        { status := some s2 } n2 =
      Except.ok { task with status := s2, updatedAt := n2 } := by
  exact ⟨rfl, rfl⟩

/-- Claim C3: the coinsReward stored on a newly created task — by plain
creation and by template-based creation — is
`Math.round(difficultyLevel * taskCompletionBase * complexityMultiplier)`
of the configuration in force at creation time, and on the non-negative
products that arise there (the data model declares `difficultyLevel`
positive) `Math.round` agrees with rounding to nearest with ties away
from zero; in particular difficulty 3, base 10, multiplier 1.5 yields
45. -/
theorem C3_reward (input : TaskInput) (settings : SystemSettings)
    (newId uid : String) (now : Nat) (template : List TemplateElement)
    (h : 0 ≤ input.difficultyLevel * settings.taskCompletionBase *
      settings.complexityMultiplier) :
    (createTask input settings newId uid now).coinsReward =
      roundTiesAway (input.difficultyLevel * settings.taskCompletionBase *
        settings.complexityMultiplier) ∧
    (createTaskWithTemplate input settings template newId uid now).coinsReward =
      roundTiesAway (input.difficultyLevel * settings.taskCompletionBase *
        settings.complexityMultiplier) ∧
    mathRound ((3 : Rat) * 10 * (3/2)) = 45 := by
  have key : mathRound (input.difficultyLevel * settings.taskCompletionBase *
      settings.complexityMultiplier) =
      roundTiesAway (input.difficultyLevel * settings.taskCompletionBase *
        settings.complexityMultiplier) := by
    unfold mathRound roundTiesAway
    rw [if_pos h]
  exact ⟨key, key, by norm_num [mathRound]⟩

/-- Claim C3 witness: the theorem applied at difficulty 3, base 10,
multiplier 1.5 (the sample configuration), whose product is
non-negative; the stored reward is 45. -/
theorem C3_reward_witness :
    (0 ≤ sampleInput.difficultyLevel * sampleSettings.taskCompletionBase *
      sampleSettings.complexityMultiplier) ∧
    ((createTask sampleInput sampleSettings "t9" "u1" 7).coinsReward =
      roundTiesAway (sampleInput.difficultyLevel *
        sampleSettings.taskCompletionBase * sampleSettings.complexityMultiplier) ∧
     (createTaskWithTemplate sampleInput sampleSettings [] "t9" "u1" 7).coinsReward =
      roundTiesAway (sampleInput.difficultyLevel *
        sampleSettings.taskCompletionBase * sampleSettings.complexityMultiplier) ∧
     mathRound ((3 : Rat) * 10 * (3/2)) = 45) ∧
    (createTask sampleInput sampleSettings "t9" "u1" 7).coinsReward = 45 := by
  have h : 0 ≤ sampleInput.difficultyLevel * sampleSettings.taskCompletionBase *
      sampleSettings.complexityMultiplier := by
    norm_num [sampleInput, sampleSettings]
  refine ⟨h, C3_reward sampleInput sampleSettings "t9" "u1" 7 [] h, ?_⟩
  show mathRound (sampleInput.difficultyLevel * sampleSettings.taskCompletionBase *
    sampleSettings.complexityMultiplier) = 45
  norm_num [sampleInput, sampleSettings, mathRound]

/-- Claim C4, counterexample: no action of `taskIncomplete` has id
"missing", yet completeTaskAction and uncompleteTaskAction both succeed
(no ActionNotFoundError — no such error exists in the code) and still
perform a write refreshing `updatedAt`, with the action sequence
unchanged. -/
theorem C4_counterexample :
    (taskIncomplete.actions.all (fun a => a.id != "missing")) = true ∧
    completeTaskAction (some taskIncomplete) "missing" 300 (some "u1") none =
      Except.ok { taskIncomplete with updatedAt := 300 } ∧
    uncompleteTaskAction (some taskIncomplete) "missing" 300 =
      Except.ok { taskIncomplete with updatedAt := 300 } := by
  refine ⟨rfl, ?_, ?_⟩
  · simp only [completeTaskAction,
      show completeActionsMap taskIncomplete.actions "missing" 300
        (some "u1") none = taskIncomplete.actions from by decide]
  · simp only [uncompleteTaskAction,
      show uncompleteActionsMap taskIncomplete.actions "missing" =
        taskIncomplete.actions from by decide]

/-- Claim C4, amended: for every task and every actionId matching no
Action of the task, both completeTaskAction and uncompleteTaskAction
succeed — no error is raised — leaving the action sequence byte-for-byte
unchanged while still writing the document with a refreshed
`updatedAt`. -/
theorem C4_amended (task : TaskSchema) (actionId : String) (now : Nat)
    (actor : Option String) (patch : Option JsObj)
    (h : ∀ a ∈ task.actions, a.id ≠ actionId) :
    completeTaskAction (some task) actionId now actor patch =
      Except.ok { task with updatedAt := now } ∧
    uncompleteTaskAction (some task) actionId now =
      Except.ok { task with updatedAt := now } := by
  have hc : completeActionsMap task.actions actionId now actor patch =
      task.actions := by
    apply map_eq_self_of
    intro a ha
    rw [if_neg (h a ha)]
  have hu : uncompleteActionsMap task.actions actionId = task.actions := by
    apply map_eq_self_of
    intro a ha
    rw [if_neg (h a ha)]
  constructor
  · simp only [completeTaskAction, hc]
  · simp only [uncompleteTaskAction, hu]

/-- Claim C4 witness: the amended theorem applied to `taskIncomplete`
and the unknown identifier "zzz". -/
theorem C4_amended_witness :
    completeTaskAction (some taskIncomplete) "zzz" 42 (some "u1") none =
      Except.ok { taskIncomplete with updatedAt := 42 } ∧
    uncompleteTaskAction (some taskIncomplete) "zzz" 42 =
      Except.ok { taskIncomplete with updatedAt := 42 } :=
  C4_amended taskIncomplete "zzz" 42 (some "u1") none (by decide)

/-- Claim C5: for every task and every Action of it that is in the
original uncompleted shape (completed = false, no completedAt, no
completedBy), completeTaskAction followed by uncompleteTaskAction yields
an action list equal to the original except that the matched Action's
`data` carries the merge of a supplied patch; `completed` returns to
false and `completedAt`/`completedBy` are removed entirely, and with no
patch the action list returns byte-for-byte to the original (in
particular `data` is not cleared). -/
theorem C5_round_trip (task : TaskSchema) (actionId : String) (now1 now2 : Nat)
    (actor : Option String) (patch : Option JsObj)
    (h : ∀ a ∈ task.actions, a.id = actionId →
      a.completed = false ∧ a.completedAt = none ∧ a.completedBy = none) :
    ∃ t1 t2,
      completeTaskAction (some task) actionId now1 actor patch = Except.ok t1 ∧
      uncompleteTaskAction (some t1) actionId now2 = Except.ok t2 ∧
      t2.actions = task.actions.map (fun a =>
        if a.id = actionId then
          { a with data := match patch with
              | some p => jsSpread a.data p
              | none => a.data }
        else a) ∧
      (patch = none → t2.actions = task.actions) := by
  have key : uncompleteActionsMap
      (completeActionsMap task.actions actionId now1 actor patch) actionId =
      task.actions.map (fun a =>
        if a.id = actionId then
          { a with data := match patch with
              | some p => jsSpread a.data p
              | none => a.data }
        else a) := by
    unfold uncompleteActionsMap completeActionsMap
    rw [List.map_map]
    apply map_congr_mem
    intro a ha
    simp only [Function.comp_apply]
    by_cases hid : a.id = actionId
    · obtain ⟨h1, h2, h3⟩ := h a ha hid
      simp only [hid, if_true, if_pos]
      cases a with
      | mk id title completed completedAt completedBy required dta =>
          simp_all
    · simp only [if_neg hid]
  refine ⟨_, _, rfl, rfl, ?_, ?_⟩
  · exact key
  · intro hp
    subst hp
    refine key.trans ?_
    apply map_eq_self_of
    intro a ha
    by_cases hid : a.id = actionId
    · rw [if_pos hid]
    · rw [if_neg hid]

/-- Claim C5 witness: the round trip applied to `taskIncomplete` and its
first action with a one-key patch; with no patch it is the identity on
the action list. -/
theorem C5_round_trip_witness :
    ∃ t1 t2,
      completeTaskAction (some taskIncomplete) "a1" 10 (some "u1") none =
        Except.ok t1 ∧
      uncompleteTaskAction (some t1) "a1" 20 = Except.ok t2 ∧
      t2.actions = taskIncomplete.actions := by
  obtain ⟨t1, t2, e1, e2, _, hnone⟩ :=
    C5_round_trip taskIncomplete "a1" 10 20 (some "u1") none (by decide)
  exact ⟨t1, t2, e1, e2, hnone rfl⟩

/-- Claim C6, counterexample: invoking the second revision of
completeTaskAction on `taskIncomplete` with the patch `{foo: 7}` does not
shallow-merge the patch: no action in the result carries the key "foo"
(the claim requires the matched action's data to map "foo" to 7), and
the matched action's `value` key is overwritten with `undefined` taken
from the absent `data.value`. -/
theorem C6_counterexample :
    completeTaskActionV2 (some taskIncomplete) "a1" 100 (some "u1")
        [("foo", JsVal.num 7)] =
      Except.ok { taskIncomplete with
        actions := completeActionsMapV2 taskIncomplete.actions "a1" 100
          (some "u1") [("foo", JsVal.num 7)],
        updatedAt := 100 } ∧
    (completeActionsMapV2 taskIncomplete.actions "a1" 100 (some "u1")
        [("foo", JsVal.num 7)]).all
      (fun a => (lookupKey a.data "foo").isNone) = true ∧
    (completeActionsMapV2 taskIncomplete.actions "a1" 100 (some "u1")
        [("foo", JsVal.num 7)]).any
      (fun a => (a.id == "a1") &&
        decide (lookupKey a.data "value" = some JsVal.undef)) = true := by
  exact ⟨rfl, by decide, by decide⟩

/-- Claim C6, amended: in the first revision of completeTaskAction a
supplied patch is shallow-merged into the matched Action's data (every
patch key overrides, every other existing key is preserved — the
`lookupKey`/`jsSpread` contract) and with no patch the data is unchanged;
in the second revision only the patch's `value` key is written into the
data (other keys of the data are untouched and every other patch key is
ignored), with `value` set to `undefined` when the patch lacks it. -/
theorem C6_amended (d p : JsObj) (actions : List TaskAction)
    (actionId : String) (now : Nat) (actor : Option String) :
    (∀ k, lookupKey (jsSpread d p) k =
      ((lookupKey p k).orElse (fun _ => lookupKey d k))) ∧
    completeActionsMap actions actionId now actor (some p) =
      actions.map (fun a =>
        if a.id = actionId then
          { a with
            completed := true,
            completedAt := some now,
            completedBy := actor,
            data := jsSpread a.data p }
        else a) ∧
    completeActionsMap actions actionId now actor none =
      actions.map (fun a =>
        if a.id = actionId then
          { a with
            completed := true,
            completedAt := some now,
            completedBy := actor }
        else a) ∧
    (∀ k, k ≠ "value" →
      lookupKey (jsSpread d
          [("value", (lookupKey p "value").getD JsVal.undef)]) k =
        lookupKey d k) ∧
    lookupKey (jsSpread d
        [("value", (lookupKey p "value").getD JsVal.undef)]) "value" =
      some ((lookupKey p "value").getD JsVal.undef) := by
  refine ⟨fun k => lookupKey_jsSpread d p k, rfl, rfl, ?_, ?_⟩
  · intro k hk
    rw [lookupKey_jsSpread]
    have hnone : lookupKey
        [("value", (lookupKey p "value").getD JsVal.undef)] k = none := by
      unfold lookupKey
      have : (("value", (lookupKey p "value").getD JsVal.undef).1 == k) = false := by
        simpa using Ne.symm hk
      simp [List.find?, this]
    rw [hnone]
    rfl
  · rw [lookupKey_jsSpread]
    rfl

/-- Claim C6 witness: the amended theorem applied at concrete objects —
the second-revision merge leaves the key "foo" of the patch unused. -/
theorem C6_amended_witness :
    lookupKey (jsSpread [("bar", JsVal.num 1)]
      [("value", (lookupKey [("foo", JsVal.num 7)] "value").getD JsVal.undef)])
      "foo" =
      lookupKey [("bar", JsVal.num 1)] "foo" :=
  (C6_amended [("bar", JsVal.num 1)] [("foo", JsVal.num 7)] [] "a" 0
    none).2.2.2.1 "foo" (by decide)

/-- Claim C7: both ledger operations preserve the invariant
`completed = true` iff both `completedAt` and `completedBy` are set, on
every Action of the task — provided an authenticated actor exists, so
that `completedBy = auth.currentUser?.uid` is actually set on the
matched action. -/
theorem C7_invariant (task : TaskSchema) (actionId : String) (now : Nat)
    (uid : String) (patch : Option JsObj)
    (hpre : ∀ a ∈ task.actions, actionInvB a = true) :
    ∃ t1 t2,
      completeTaskAction (some task) actionId now (some uid) patch =
        Except.ok t1 ∧
      uncompleteTaskAction (some task) actionId now = Except.ok t2 ∧
      (∀ a ∈ t1.actions, actionInvB a = true) ∧
      (∀ a ∈ t2.actions, actionInvB a = true) := by
  have hc : ∀ a ∈ completeActionsMap task.actions actionId now (some uid) patch,
      actionInvB a = true := by
    unfold completeActionsMap
    intro a ha
    obtain ⟨a0, ha0, heq⟩ := List.mem_map.1 ha
    subst heq
    by_cases hid : a0.id = actionId
    · rw [if_pos hid]
      rfl
    · rw [if_neg hid]
      exact hpre a0 ha0
  have hu : ∀ a ∈ uncompleteActionsMap task.actions actionId,
      actionInvB a = true := by
    unfold uncompleteActionsMap
    intro a ha
    obtain ⟨a0, ha0, heq⟩ := List.mem_map.1 ha
    subst heq
    by_cases hid : a0.id = actionId
    · rw [if_pos hid]
      rfl
    · rw [if_neg hid]
      exact hpre a0 ha0
  exact ⟨_, _, rfl, rfl, hc, hu⟩

/-- Claim C7 witness: the invariant-preservation theorem applied to
`taskWaiting` (whose single action is completed with both fields set)
and its action "a1". -/
theorem C7_invariant_witness :
    ∃ t1 t2,
      completeTaskAction (some taskWaiting) "a1" 30 (some "u2") none =
        Except.ok t1 ∧
      uncompleteTaskAction (some taskWaiting) "a1" 30 = Except.ok t2 ∧
      (∀ a ∈ t1.actions, actionInvB a = true) ∧
      (∀ a ∈ t2.actions, actionInvB a = true) :=
  C7_invariant taskWaiting "a1" 30 "u2" none (by decide)

theorem handleCompleteTask_eq (task : TaskSchema) (msgs : List StoredMessage)
    (now : Nat) (sn an : String) :
    handleCompleteTask (some task) msgs now sn an =
      (match msgs.find? (isSubmissionMarker task.id) with
       | some sub =>
           Except.ok
             ({ task with status := TaskStatus.completed, updatedAt := now },
              [approvalMessage
                { task with status := TaskStatus.completed, updatedAt := now }
                sub sn an now])
       | none =>
           Except.ok
             ({ task with status := TaskStatus.completed, updatedAt := now },
              [])) := rfl

/-- Claim C8, counterexample: approving `taskWaiting` when the project
chat holds no messages at all commits the transition to `completed`
(status and updatedAt are persisted) but emits zero ChatAnnouncer events
— not exactly one; the whole approval announcement is skipped when no
matching submission announcement is found, not just the correlation
step. -/
theorem C8_counterexample :
    handleCompleteTask (some taskWaiting) [] 500 "S" "A" =
      Except.ok
        ({ taskWaiting with status := TaskStatus.completed, updatedAt := 500 },
         []) := rfl

/-- Claim C8, amended: a successful submission persists
`status = waiting_approval` and a fresh `updatedAt` and then emits
exactly one `task_submission` announcement whose quoted content embeds
the `/tasks/{id}` marker; a successful approval persists
`status = completed` and a fresh `updatedAt` and then, when a stored
message matches the submission marker, emits exactly one `task_approval`
announcement back-referencing it through `originalMessageId` — but when
no stored message matches, the approval still commits and no
announcement is emitted at all (the miss is only logged). -/
theorem C8_amended (task : TaskSchema) (msgs : List StoredMessage) (now : Nat)
    (sn an : String) :
    handleSubmitForApproval (some task) now sn =
      Except.ok
        ({ task with status := TaskStatus.waiting_approval, updatedAt := now },
         [submissionMessage
           { task with status := TaskStatus.waiting_approval, updatedAt := now }
           sn now]) ∧
    (submissionMessage
      { task with status := TaskStatus.waiting_approval, updatedAt := now }
      sn now).messageType = "task_submission" ∧
    (submissionMessage
      { task with status := TaskStatus.waiting_approval, updatedAt := now }
      sn now).quotedContent =
      "Tarefa: " ++ task.title ++ " - [Ver Tarefa](/tasks/" ++ task.id ++ ")" ∧
    (match msgs.find? (isSubmissionMarker task.id) with
     | some sub =>
         handleCompleteTask (some task) msgs now sn an =
           Except.ok
             ({ task with status := TaskStatus.completed, updatedAt := now },
              [approvalMessage
                { task with status := TaskStatus.completed, updatedAt := now }
                sub sn an now]) ∧
         (approvalMessage
           { task with status := TaskStatus.completed, updatedAt := now }
           sub sn an now).messageType = "task_approval" ∧
         (approvalMessage
           { task with status := TaskStatus.completed, updatedAt := now }
           sub sn an now).originalMessageId = some sub.id
     | none =>
         handleCompleteTask (some task) msgs now sn an =
           Except.ok
             ({ task with status := TaskStatus.completed, updatedAt := now },
              [])) := by
  refine ⟨rfl, rfl, rfl, ?_⟩
  cases hfind : msgs.find? (isSubmissionMarker task.id) with
  | some sub =>
      refine ⟨?_, rfl, rfl⟩
      rw [handleCompleteTask_eq, hfind]
  | none =>
      rw [handleCompleteTask_eq, hfind]

/-- Claim C9, counterexample: in createTask with an assignee, when the
notification dispatcher fails, the committed task write is kept (no
rollback) but — contrary to the claim — the failure is not swallowed: the
activity recorder is never invoked (suppressed) and the error surfaces to
the caller of createTask, because the surrounding catch block rethrows. -/
theorem C9_counterexample :
    (createTaskEffects false true true false).committed = true ∧
    (createTaskEffects false true true false).activityInvoked = false ∧
    (createTaskEffects false true true false).result =
      Except.error "dispatch failure" := ⟨rfl, rfl, rfl⟩

/-- Claim C9, amended: dispatchers run only after the document write has
committed, and a dispatcher failure never rolls the committed write back;
but dispatcher failures are not independently caught — a failing
notification call suppresses the subsequent activity-log call and
surfaces the error to the caller (and likewise a failing first
activity-log call in updateTask suppresses the status-specific log call),
because each service wraps the write and all dispatch calls in a single
try/catch that rethrows. -/
theorem C9_amended :
    ∀ sdf ha nf af udf su l1f l2f : Bool,
      ((createTaskEffects sdf ha nf af).notifyInvoked = true ∨
        (createTaskEffects sdf ha nf af).activityInvoked = true →
        (createTaskEffects sdf ha nf af).committed = true) ∧
      ((createTaskEffects sdf ha nf af).result = Except.ok () ↔
        sdf = false ∧ (ha && nf) = false ∧ af = false) ∧
      (sdf = false → ha = true → nf = true →
        (createTaskEffects sdf ha nf af).activityInvoked = false ∧
        (createTaskEffects sdf ha nf af).result =
          Except.error "dispatch failure") ∧
      ((updateTaskEffects udf su l1f l2f).updateLogInvoked = true ∨
        (updateTaskEffects udf su l1f l2f).statusLogInvoked = true →
        (updateTaskEffects udf su l1f l2f).committed = true) ∧
      (udf = false → l1f = true →
        (updateTaskEffects udf su l1f l2f).statusLogInvoked = false ∧
        (updateTaskEffects udf su l1f l2f).result =
          Except.error "dispatch failure") := by
  intro sdf ha nf af udf su l1f l2f
  cases sdf <;> cases ha <;> cases nf <;> cases af <;>
    cases udf <;> cases su <;> cases l1f <;> cases l2f <;> decide

/-- Claim C9 witness: the amended theorem applied at the trace where the
write commits, the task has an assignee and the notification dispatcher
fails. -/
theorem C9_amended_witness :
    (createTaskEffects false true true false).activityInvoked = false ∧
    (createTaskEffects false true true false).result =
      Except.error "dispatch failure" :=
  (C9_amended false true true false false false false false).2.2.1 rfl rfl rfl

/-- Claim C10: fetchTasks computes `totalTasks` from the page it fetched
(after the limit constraint), so the returned `totalTasks` always equals
the length of the returned `data` array, and whenever a `limit` is
supplied the reported `totalPages = Math.ceil(totalTasks / limit)` never
exceeds 1, no matter how many matching tasks exist in the store. -/
theorem C10_fetch (store : List TaskSchema) (o : FetchOptions) :
    (fetchTasks store o).totalTasks = (fetchTasks store o).data.length ∧
    (∀ L, o.limit = some L → (fetchTasks store o).totalPages ≤ 1) := by
  constructor
  · rfl
  · intro L hL
    by_cases h0 : L = 0
    · subst h0
      simp [fetchTasks, jsTruthyNat, hL]
    · have htr : jsTruthyNat o.limit = true := by simp [jsTruthyNat, hL, h0]
      have hlen : (fetchedPage store o).length ≤ L := by
        unfold fetchedPage
        rw [if_pos htr, hL]
        simp only [List.length_take, Option.getD_some]
        exact min_le_left _ _
      show (if jsTruthyNat o.limit then
          natCeilDiv (fetchedPage store o).length (o.limit.getD 0)
        else 1) ≤ 1
      rw [if_pos htr, hL]
      exact natCeilDiv_le_one _ L (Nat.pos_of_ne_zero h0) hlen

/-- Claim C10 witness: the theorem applied to a store holding three
matching tasks and options with limit 1 — the reported totalPages is at
most 1 even though three tasks match. -/
theorem C10_fetch_witness :
    (fetchTasks sampleStore sampleOptions).totalTasks =
      (fetchTasks sampleStore sampleOptions).data.length ∧
    (fetchTasks sampleStore sampleOptions).totalPages ≤ 1 :=
  ⟨(C10_fetch sampleStore sampleOptions).1,
   (C10_fetch sampleStore sampleOptions).2 1 rfl⟩
